import Mathlib

/-!
The shader pipeline and the draw-call contract of godraw

A shallow embedding of `godraw.go`.  The program is a thin layer over two
external collaborators, the OpenGL driver and the GLFW windowing library.
Every call the program makes into them is recorded in a trace (`Call`), and
every value they hand back is read from a `Driver`, a table of answers indexed
by the position of the asking call in the sequence of all calls.  Go `float32` values are
carried by `ℚ` (exact arithmetic); Go `uint32` handles by `Nat`; Go `int32`
values by `Int`, with the wrap-around of `int32` addition made explicit.
-/

namespace Godraw

/-! ## Scalars, vectors and matrices (package `mgl32`) -/

/-- Carrier of Go `float32` values, in exact arithmetic. -/
abbrev F32 := ℚ

/-- Go `int32` addition wraps around; this is the wrap of an exact integer. -/
def wrapInt32 (x : Int) : Int := (x + 2147483648) % 4294967296 - 2147483648

/-- Conversion `uint32(x)` of an `int32` value. -/
def toUint32 (x : Int) : Nat := (x % 4294967296).toNat

/-- The type `mgl32.Vec3`. -/
structure Vec3 where
  x : F32
  y : F32
  z : F32
deriving DecidableEq

/-- The type `mgl32.Mat4`: sixteen floats in column-major order, `mI` being
index `I` of the Go array. -/
structure Mat4 where
  m0 : F32
  m1 : F32
  m2 : F32
  m3 : F32
  m4 : F32
  m5 : F32
  m6 : F32
  m7 : F32
  m8 : F32
  m9 : F32
  m10 : F32
  m11 : F32
  m12 : F32
  m13 : F32
  m14 : F32
  m15 : F32
deriving DecidableEq

/-- The sixteen floats found at `&m[0]`. -/
def Mat4.toList (m : Mat4) : List F32 :=
  [m.m0, m.m1, m.m2, m.m3, m.m4, m.m5, m.m6, m.m7,
   m.m8, m.m9, m.m10, m.m11, m.m12, m.m13, m.m14, m.m15]

/-- The function `mgl32.Ident4`. -/
def Ident4 : Mat4 :=
  ⟨1, 0, 0, 0, 0, 1, 0, 0, 0, 0, 1, 0, 0, 0, 0, 1⟩

/-- The function `mgl32.Translate3D`. -/
def Translate3D (Tx Ty Tz : F32) : Mat4 :=
  ⟨1, 0, 0, 0, 0, 1, 0, 0, 0, 0, 1, 0, Tx, Ty, Tz, 1⟩

/-- The function `mgl32.Scale3D`. -/
def Scale3D (scaleX scaleY scaleZ : F32) : Mat4 :=
  ⟨scaleX, 0, 0, 0, 0, scaleY, 0, 0, 0, 0, scaleZ, 0, 0, 0, 0, 1⟩

/-- The method `Mat4.Mul4`: the product of two column-major matrices. -/
def Mat4.Mul4 (a b : Mat4) : Mat4 :=
  ⟨a.m0 * b.m0 + a.m4 * b.m1 + a.m8 * b.m2 + a.m12 * b.m3,
   a.m1 * b.m0 + a.m5 * b.m1 + a.m9 * b.m2 + a.m13 * b.m3,
   a.m2 * b.m0 + a.m6 * b.m1 + a.m10 * b.m2 + a.m14 * b.m3,
   a.m3 * b.m0 + a.m7 * b.m1 + a.m11 * b.m2 + a.m15 * b.m3,
   a.m0 * b.m4 + a.m4 * b.m5 + a.m8 * b.m6 + a.m12 * b.m7,
   a.m1 * b.m4 + a.m5 * b.m5 + a.m9 * b.m6 + a.m13 * b.m7,
   a.m2 * b.m4 + a.m6 * b.m5 + a.m10 * b.m6 + a.m14 * b.m7,
   a.m3 * b.m4 + a.m7 * b.m5 + a.m11 * b.m6 + a.m15 * b.m7,
   a.m0 * b.m8 + a.m4 * b.m9 + a.m8 * b.m10 + a.m12 * b.m11,
   a.m1 * b.m8 + a.m5 * b.m9 + a.m9 * b.m10 + a.m13 * b.m11,
   a.m2 * b.m8 + a.m6 * b.m9 + a.m10 * b.m10 + a.m14 * b.m11,
   a.m3 * b.m8 + a.m7 * b.m9 + a.m11 * b.m10 + a.m15 * b.m11,
   a.m0 * b.m12 + a.m4 * b.m13 + a.m8 * b.m14 + a.m12 * b.m15,
   a.m1 * b.m12 + a.m5 * b.m13 + a.m9 * b.m14 + a.m13 * b.m15,
   a.m2 * b.m12 + a.m6 * b.m13 + a.m10 * b.m14 + a.m14 * b.m15,
   a.m3 * b.m12 + a.m7 * b.m13 + a.m11 * b.m14 + a.m15 * b.m15⟩

/-- The function `mgl32.Ortho`. -/
def Ortho (left right bottom top near far : F32) : Mat4 :=
  let rml := right - left
  let tmb := top - bottom
  let fmn := far - near
  ⟨2 / rml, 0, 0, 0, 0, 2 / tmb, 0, 0, 0, 0, -2 / fmn, 0,
   -(right + left) / rml, -(top + bottom) / tmb, -(far + near) / fmn, 1⟩

/-- The function `mgl32.Ortho2D`. -/
def Ortho2D (left right bottom top : F32) : Mat4 :=
  Ortho left right bottom top (-1) 1

/-- Square root standing for `math.Sqrt` on `float32`: exact on the squares
of rationals, which is all the fixed camera needs. -/
def sqrtF32 (q : F32) : F32 :=
  (Nat.sqrt q.num.toNat : ℚ) / (Nat.sqrt q.den : ℚ)

/-- The method `Vec3.Sub`. -/
def Vec3.Sub (a b : Vec3) : Vec3 := ⟨a.x - b.x, a.y - b.y, a.z - b.z⟩

/-- The method `Vec3.Len`. -/
def Vec3.Len (a : Vec3) : F32 := sqrtF32 (a.x * a.x + a.y * a.y + a.z * a.z)

/-- The method `Vec3.Normalize`. -/
def Vec3.Normalize (a : Vec3) : Vec3 :=
  let l := 1 / a.Len
  ⟨a.x * l, a.y * l, a.z * l⟩

/-- The method `Vec3.Cross`. -/
def Vec3.Cross (a b : Vec3) : Vec3 :=
  ⟨a.y * b.z - a.z * b.y, a.z * b.x - a.x * b.z, a.x * b.y - a.y * b.x⟩

/-- The function `mgl32.LookAtV`. -/
def LookAtV (eye center up : Vec3) : Mat4 :=
  let f := (center.Sub eye).Normalize
  let s := (f.Cross up.Normalize).Normalize
  let u := s.Cross f
  let M : Mat4 :=
    ⟨s.x, u.x, -f.x, 0, s.y, u.y, -f.y, 0, s.z, u.z, -f.z, 0, 0, 0, 0, 1⟩
  M.Mul4 (Translate3D (-eye.x) (-eye.y) (-eye.z))

/-! ## Constants of the `gl` and `glfw` packages -/

def FALSE : Int := 0
def TRIANGLES : Nat := 0x0004
def DEPTH_BUFFER_BIT : Nat := 0x00000100
def COLOR_BUFFER_BIT : Nat := 0x00004000
def LESS : Nat := 0x0201
def DEPTH_TEST : Nat := 0x0B71
def FLOAT : Nat := 0x1406
def ARRAY_BUFFER : Nat := 0x8892
def STATIC_DRAW : Nat := 0x88E4
def FRAGMENT_SHADER : Nat := 0x8B30
def VERTEX_SHADER : Nat := 0x8B31
def COMPILE_STATUS : Nat := 0x8B81
def LINK_STATUS : Nat := 0x8B82
def INFO_LOG_LENGTH : Nat := 0x8B84

def glfwFalse : Int := 0
def glfwTrue : Int := 1
def glfwResizable : Nat := 0x00020003
def glfwContextVersionMajor : Nat := 0x00022002
def glfwContextVersionMinor : Nat := 0x00022003
def glfwOpenGLForwardCompatible : Nat := 0x00022006
def glfwOpenGLProfile : Nat := 0x00022008
def glfwOpenGLCoreProfile : Int := 0x00032001

/-! ## Driver calls, driver answers and the call trace -/

/-- One call into the OpenGL driver or the windowing library, with the
arguments passed.  A pointer argument is recorded as the array it points
into. -/
inductive Call where
  | glfwInit
  | glfwWindowHint (target : Nat) (hint : Int)
  | glfwCreateWindow (width height : Int) (title : String)
  | glfwMakeContextCurrent (window : Nat)
  | glfwPollEvents
  | glInit
  | CreateShader (shaderType : Nat)
  | ShaderSource (shader : Nat) (count : Int) (source : String)
  | CompileShader (shader : Nat)
  | GetShaderiv (shader : Nat) (pname : Nat)
  | GetShaderInfoLog (shader : Nat) (bufSize : Int)
  | DeleteShader (shader : Nat)
  | CreateProgram
  | AttachShader (program shader : Nat)
  | LinkProgram (program : Nat)
  | GetProgramiv (program : Nat) (pname : Nat)
  | GetProgramInfoLog (program : Nat) (bufSize : Int)
  | UseProgram (program : Nat)
  | GetUniformLocation (program : Nat) (name : String)
  | GetAttribLocation (program : Nat) (name : String)
  | UniformMatrix4fv (location : Int) (count : Int) (transpose : Bool) (value : List F32)
  | Uniform4fv (location : Int) (count : Int) (value : List F32)
  | GenVertexArrays (n : Int)
  | BindVertexArray (array : Nat)
  | GenBuffers (n : Int)
  | BindBuffer (target : Nat) (buffer : Nat)
  | BufferData (target : Nat) (size : Int) (data : List F32) (usage : Nat)
  | EnableVertexAttribArray (index : Nat)
  | VertexAttribPointer (index : Nat) (size : Int) (xtype : Nat) (normalized : Bool)
      (stride : Int) (offset : Nat)
  | Enable (cap : Nat)
  | DepthFunc (func : Nat)
  | ClearColor (red green blue alpha : F32)
  | Clear (mask : Nat)
  | DrawArrays (mode : Nat) (first : Int) (count : Int)
deriving DecidableEq

/-- The answers of the driver and of the windowing library.  Each answer is
indexed by the position in the trace of the call that asks for it, so a
`Driver` can stand for any deterministic environment.  For a query with an
out-parameter (`GetShaderiv`, `GetProgramiv`, `GenBuffers`, ...) the answer is
the value of the zero-initialised variable after the call. -/
structure Driver where
  glfwInit : Nat → Option String
  glfwCreateWindow : Nat → Nat × Option String
  glInit : Nat → Option String
  CreateShader : Nat → Nat
  GetShaderiv : Nat → Int
  GetShaderInfoLog : Nat → List Char
  CreateProgram : Nat → Nat
  GetProgramiv : Nat → Int
  GetProgramInfoLog : Nat → List Char
  GetUniformLocation : Nat → Int
  GetAttribLocation : Nat → Int
  GenVertexArrays : Nat → Nat
  GenBuffers : Nat → Nat

/-- How a run can end without returning: a Go panic or `log.Fatalln`. -/
inductive Abort where
  | panic (msg : String)
  | fatal (msg : String)
deriving DecidableEq

/-- A computation that issues driver calls.  Started when `pos` calls have
already been made, it yields the calls it issues, in order, and either a
returned value or an abort. -/
def Run (α : Type) : Type := Nat → Except Abort α × List Call

/-- Return a value without calling the driver. -/
def Run.pure {α : Type} (a : α) : Run α := fun _ => (Except.ok a, [])

/-- Sequencing: the second computation starts where the first stopped; an
abort stops the run. -/
def Run.bind {α β : Type} (m : Run α) (f : α → Run β) : Run β := fun pos =>
  match m pos with
  | (Except.ok a, cs) => ((f a (pos + cs.length)).1, cs ++ (f a (pos + cs.length)).2)
  | (Except.error e, cs) => (Except.error e, cs)

instance : Monad Run where
  pure := Run.pure
  bind := Run.bind

/-- Issue a call with no answer. -/
def call (c : Call) : Run Unit := fun _ => (Except.ok (), [c])

/-- Issue a call and read its answer from the driver's table. -/
def ask {α : Type} (answer : Nat → α) (c : Call) : Run α :=
  fun pos => (Except.ok (answer pos), [c])

/-- Stop the run. -/
def abort {α : Type} (e : Abort) : Run α := fun _ => (Except.error e, [])

/-! ## Strings handed to the driver -/

/-- The NUL byte. -/
def nul : Char := Char.ofNat 0

/-- The test `strings.HasSuffix(s, "\x00")`. -/
def hasNulSuffix (s : String) : Bool := s.data.getLast? == some nul

/-- The function `gl.Str`: the address of a NUL-terminated Go string; the
binding panics on a string with no NUL terminator. -/
def Str (s : String) : Run String :=
  if hasNulSuffix s then Run.pure s
  else abort (Abort.panic ("str argument missing null terminator: " ++ s))

/-- The call `strings.Repeat("\x00", count)`, which panics on a negative count. -/
def RepeatNul (count : Int) : Run String :=
  if count < 0 then abort (Abort.panic "strings: negative Repeat count")
  else Run.pure (String.mk (List.replicate count.toNat nul))

/-- The buffer after the driver has written an info log into it: the driver
writes at most `bufSize` bytes, at the start of the buffer. -/
def writeLog (buf : String) (bufSize : Int) (written : List Char) : String :=
  String.mk (written.take (min bufSize.toNat buf.length) ++
    buf.data.drop (written.take (min bufSize.toNat buf.length)).length)

/-! ## The shader compiler and the program linker -/

/-- The function `compileShader` of `godraw.go`. -/
def compileShader (d : Driver) (source : String) (shaderType : Nat) :
    Run (Nat × Option String) := do
  let shader ← ask d.CreateShader (Call.CreateShader shaderType)
  let csource ← Str source
  call (Call.ShaderSource shader 1 csource)
  call (Call.CompileShader shader)
  let status ← ask d.GetShaderiv (Call.GetShaderiv shader COMPILE_STATUS)
  if status = FALSE then
    let logLength ← ask d.GetShaderiv (Call.GetShaderiv shader INFO_LOG_LENGTH)
    let log ← RepeatNul (wrapInt32 (logLength + 1))
    let buf ← Str log
    let written ← ask d.GetShaderInfoLog (Call.GetShaderInfoLog shader logLength)
    let log := writeLog buf logLength written
    return (0, some ("failed to compile " ++ source ++ ": " ++ log))
  return (shader, none)

/-- The function `newProgram` of `godraw.go`. -/
def newProgram (d : Driver) (vertexShaderSource fragmentShaderSource : String) :
    Run (Nat × Option String) := do
  let (vertexShader, err) ← compileShader d vertexShaderSource VERTEX_SHADER
  if err ≠ none then
    return (0, err)
  let (fragmentShader, err) ← compileShader d fragmentShaderSource FRAGMENT_SHADER
  if err ≠ none then
    return (0, err)
  let program ← ask d.CreateProgram Call.CreateProgram
  call (Call.AttachShader program vertexShader)
  call (Call.AttachShader program fragmentShader)
  call (Call.LinkProgram program)
  let status ← ask d.GetProgramiv (Call.GetProgramiv program LINK_STATUS)
  if status = FALSE then
    let logLength ← ask d.GetProgramiv (Call.GetProgramiv program INFO_LOG_LENGTH)
    let log ← RepeatNul (wrapInt32 (logLength + 1))
    let buf ← Str log
    let written ← ask d.GetProgramInfoLog (Call.GetProgramInfoLog program logLength)
    let log := writeLog buf logLength written
    return (0, some ("failed to link program: " ++ log))
  call (Call.DeleteShader vertexShader)
  call (Call.DeleteShader fragmentShader)
  return (program, none)

/-! ## The render context -/

/-- The type `Context`; the window is an opaque handle. -/
structure Context where
  program : Nat
  Window : Nat
deriving DecidableEq

/-- The type `Color`. -/
structure Color where
  R : F32
  G : F32
  B : F32
deriving DecidableEq

/-- The vertex shader text of `CreateContext`. -/
def vertexShader : String :=
  "\n#version 330\nuniform mat4 projection;\nuniform mat4 camera;\nuniform mat4 model;\nin vec3 vert;\nvoid main() \x7b\n    gl_Position = projection * camera * model * vec4(vert, 1);\n\x7d\n" ++ "\x00"

/-- The fragment shader text of `CreateContext`. -/
def fragmentShader : String :=
  "\n#version 330\nuniform vec4 color;\nout vec4 outputColor;\nvoid main() \x7b\n    outputColor = color;\n\x7d\n" ++ "\x00"

/-- The vertex data of `CreateContext`. -/
def vertices : List F32 :=
  [0, 0, 0,
   1, 0, 0,
   1, 1, 0,
   1, 1, 0,
   0, 1, 0,
   0, 0, 0]

/-- The function `CreateContext` of `godraw.go`. -/
def CreateContext (d : Driver) (width height : Int) : Run Context := do
  let err ← ask d.glfwInit Call.glfwInit
  if let some e := err then
    abort (Abort.fatal ("failed to initialize glfw: " ++ e))
  call (Call.glfwWindowHint glfwResizable glfwFalse)
  call (Call.glfwWindowHint glfwContextVersionMajor 3)
  call (Call.glfwWindowHint glfwContextVersionMinor 3)
  call (Call.glfwWindowHint glfwOpenGLProfile glfwOpenGLCoreProfile)
  call (Call.glfwWindowHint glfwOpenGLForwardCompatible glfwTrue)
  let (window, err) ← ask d.glfwCreateWindow (Call.glfwCreateWindow width height "OpenGL")
  if let some e := err then
    abort (Abort.panic e)
  call (Call.glfwMakeContextCurrent window)
  let err ← ask d.glInit Call.glInit
  if let some e := err then
    abort (Abort.panic e)
  let (program, err) ← newProgram d vertexShader fragmentShader
  if let some e := err then
    abort (Abort.panic e)
  call (Call.UseProgram program)
  let projection := Ortho2D 0 800 0 600
  let name ← Str "projection\x00"
  let projectionUniform ← ask d.GetUniformLocation (Call.GetUniformLocation program name)
  call (Call.UniformMatrix4fv projectionUniform 1 false projection.toList)
  let camera := LookAtV ⟨0, 0, 1 / 2⟩ ⟨0, 0, 0⟩ ⟨0, 1, 0⟩
  let name ← Str "camera\x00"
  let cameraUniform ← ask d.GetUniformLocation (Call.GetUniformLocation program name)
  call (Call.UniformMatrix4fv cameraUniform 1 false camera.toList)
  let model := Ident4
  let name ← Str "model\x00"
  let modelUniform ← ask d.GetUniformLocation (Call.GetUniformLocation program name)
  call (Call.UniformMatrix4fv modelUniform 1 false model.toList)
  let vao ← ask d.GenVertexArrays (Call.GenVertexArrays 1)
  call (Call.BindVertexArray vao)
  let vbo ← ask d.GenBuffers (Call.GenBuffers 1)
  call (Call.BindBuffer ARRAY_BUFFER vbo)
  call (Call.BufferData ARRAY_BUFFER (vertices.length * 4) vertices STATIC_DRAW)
  let name ← Str "vert\x00"
  let vertAttrib := toUint32 (← ask d.GetAttribLocation (Call.GetAttribLocation program name))
  call (Call.EnableVertexAttribArray vertAttrib)
  call (Call.VertexAttribPointer vertAttrib 3 FLOAT false (3 * 4) 0)
  call (Call.Enable DEPTH_TEST)
  call (Call.DepthFunc LESS)
  return { Window := window, program := program }

/-- The method `Context.Clear` of `godraw.go`. -/
def Context.Clear (_c : Context) (color : Color) : Run Unit := do
  call (Call.ClearColor color.R color.G color.B 1)
  call (Call.Clear (COLOR_BUFFER_BIT ||| DEPTH_BUFFER_BIT))

/-- The method `Context.PollEvents` of `godraw.go`. -/
def Context.PollEvents (_c : Context) : Run Unit :=
  call Call.glfwPollEvents

/-- The method `Context.DrawRectangle` of `godraw.go`. -/
def Context.DrawRectangle (d : Driver) (c : Context) (x y w h : F32) (color : Color) :
    Run Unit := do
  call (Call.UseProgram c.program)
  let model := (Translate3D x y 0).Mul4 (Scale3D w h 0)
  let name ← Str "model\x00"
  let modelUniform ← ask d.GetUniformLocation (Call.GetUniformLocation c.program name)
  call (Call.UniformMatrix4fv modelUniform 1 false model.toList)
  let colorArray : List F32 := [color.B, color.G, color.R]
  let name ← Str "color\x00"
  let colorUniform ← ask d.GetUniformLocation (Call.GetUniformLocation c.program name)
  call (Call.Uniform4fv colorUniform 1 colorArray)
  call (Call.DrawArrays TRIANGLES 0 6)

/-! ## Recognisers of calls and sample drivers -/

/-- The calls `compileShader` can issue. -/
def Call.isShaderCall : Call → Bool
  | Call.CreateShader _ => true
  | Call.ShaderSource _ _ _ => true
  | Call.CompileShader _ => true
  | Call.GetShaderiv _ _ => true
  | Call.GetShaderInfoLog _ _ => true
  | _ => false

/-- The calls that create or build a program object. -/
def Call.isProgramCall : Call → Bool
  | Call.CreateProgram => true
  | Call.AttachShader _ _ => true
  | Call.LinkProgram _ => true
  | _ => false

/-- Recogniser of `DeleteShader` calls. -/
def Call.isDeleteShader : Call → Bool
  | Call.DeleteShader _ => true
  | _ => false

/-- Recogniser of `CreateShader` calls. -/
def Call.isCreateShader : Call → Bool
  | Call.CreateShader _ => true
  | _ => false

/-- Recogniser of `CompileShader` calls. -/
def Call.isCompileShader : Call → Bool
  | Call.CompileShader _ => true
  | _ => false

/-- The zero-filled buffer `strings.Repeat("\x00", int(logLength+1))` when
the count is not negative. -/
def logBuffer (logLength : Int) : String :=
  String.mk (List.replicate (logLength + 1).toNat nul)

/-- A driver on which every step succeeds: a created object gets the
position of its creating call plus one as handle, and every status is 1. -/
def okDriver : Driver where
  glfwInit := fun _ => none
  glfwCreateWindow := fun n => (n + 1, none)
  glInit := fun _ => none
  CreateShader := fun n => n + 1
  GetShaderiv := fun _ => 1
  GetShaderInfoLog := fun _ => []
  CreateProgram := fun n => n + 1
  GetProgramiv := fun _ => 1
  GetProgramInfoLog := fun _ => []
  GetUniformLocation := fun _ => 2
  GetAttribLocation := fun _ => 0
  GenVertexArrays := fun _ => 1
  GenBuffers := fun _ => 1

/-- A driver like `okDriver` on which the status query at position `k` answers
`FALSE` and the next query reports an info log of five bytes, `oops` and NUL. -/
def shaderFailDriver (k : Nat) : Driver :=
  { okDriver with
    GetShaderiv := fun n => if n = k then 0 else if n = k + 1 then 5 else 1
    GetShaderInfoLog := fun _ => ['o', 'o', 'p', 's', nul] }

/-- A driver like `okDriver` on which the link status query of a run started
at position 0 answers `FALSE`, with an info log of five bytes. -/
def linkFailDriver : Driver :=
  { okDriver with
    GetProgramiv := fun n => if n = 12 then 0 else if n = 13 then 5 else 1
    GetProgramInfoLog := fun _ => ['o', 'o', 'p', 's', nul] }

/-! ## Reading the draw-call trace -/

/-- The number of floats the driver reads through the pointer argument of an
upload: four per vector, sixteen per matrix, `size / 4` for buffer data. -/
def Call.floatsRead : Call → Int
  | Call.UniformMatrix4fv _ count _ _ => 16 * count
  | Call.Uniform4fv _ count _ => 4 * count
  | Call.BufferData _ size _ _ => size / 4
  | _ => 0

/-- The number of floats in the array the pointer argument points into. -/
def Call.floatsGiven : Call → Int
  | Call.UniformMatrix4fv _ _ _ value => value.length
  | Call.Uniform4fv _ _ value => value.length
  | Call.BufferData _ _ data _ => data.length
  | _ => 0

/-- Recogniser of the calls that create, bind or fill a buffer or a vertex
array. -/
def Call.isBufferOrVertexArrayCall : Call → Bool
  | Call.GenVertexArrays _ => true
  | Call.BindVertexArray _ => true
  | Call.GenBuffers _ => true
  | Call.BindBuffer _ _ => true
  | Call.BufferData _ _ _ _ => true
  | Call.EnableVertexAttribArray _ => true
  | Call.VertexAttribPointer _ _ _ _ _ _ => true
  | _ => false

/-- Recogniser of draw commands. -/
def Call.isDraw : Call → Bool
  | Call.DrawArrays _ _ _ => true
  | _ => false

/-- Recogniser of uniform uploads. -/
def Call.isUniformUpload : Call → Bool
  | Call.UniformMatrix4fv _ _ _ _ => true
  | Call.Uniform4fv _ _ _ => true
  | _ => false

/-- Recogniser of uniform location queries. -/
def Call.isUniformQuery : Call → Bool
  | Call.GetUniformLocation _ _ => true
  | _ => false

/-- A call with the location number of a uniform upload, which is an answer
of the driver, blanked out. -/
def Call.eraseLocation : Call → Call
  | Call.UniformMatrix4fv _ count transpose value => Call.UniformMatrix4fv 0 count transpose value
  | Call.Uniform4fv _ count value => Call.Uniform4fv 0 count value
  | c => c

/-- A rectangle draw request: the arguments of one `DrawRectangle` call. -/
structure Rect where
  x : F32
  y : F32
  w : F32
  h : F32
  color : Color
deriving DecidableEq

/-- A caller that issues one `DrawRectangle` per request, in order. -/
def drawRectangles (d : Driver) (c : Context) : List Rect → Run Unit
  | [] => Run.pure ()
  | r :: rs => Run.bind (c.DrawRectangle d r.x r.y r.w r.h r.color)
      (fun _ => drawRectangles d c rs)

/-! ## Reading the uploaded geometry -/

/-- Recogniser of vertex data uploads. -/
def Call.isBufferData : Call → Bool
  | Call.BufferData _ _ _ _ => true
  | _ => false

/-- Recogniser of vertex attribute layouts. -/
def Call.isVertexAttribPointer : Call → Bool
  | Call.VertexAttribPointer _ _ _ _ _ _ => true
  | _ => false

/-- Vertex `i` of an array of tightly packed positions of three floats. -/
def vertexAt (data : List F32) (i : Nat) : Vec3 :=
  ⟨data.getD (3 * i) 0, data.getD (3 * i + 1) 0, data.getD (3 * i + 2) 0⟩

/-- The signed area test of point `p` against the edge from `a` to `b`. -/
def edgeSide (a b p : F32 × F32) : F32 :=
  (b.1 - a.1) * (p.2 - a.2) - (b.2 - a.2) * (p.1 - a.1)

/-- Membership of a point in the closed triangle `a b c`, of either
orientation. -/
def inTriangle (a b c p : F32 × F32) : Prop :=
  (0 ≤ edgeSide a b p ∧ 0 ≤ edgeSide b c p ∧ 0 ≤ edgeSide c a p) ∨
  (edgeSide a b p ≤ 0 ∧ edgeSide b c p ≤ 0 ∧ edgeSide c a p ≤ 0)

instance (a b c p : F32 × F32) : Decidable (inTriangle a b c p) := by
  unfold inTriangle
  infer_instance

/-- Triangle number `t` of vertex data drawn with topology `TRIANGLES`
covers the point `p` of the plane. -/
def triangleCovers (data : List F32) (t : Nat) (p : F32 × F32) : Prop :=
  inTriangle ((vertexAt data (3 * t)).x, (vertexAt data (3 * t)).y)
    ((vertexAt data (3 * t + 1)).x, (vertexAt data (3 * t + 1)).y)
    ((vertexAt data (3 * t + 2)).x, (vertexAt data (3 * t + 2)).y) p

/-- The calls `newProgram` can issue. -/
def Call.isLinkerCall : Call → Bool
  | Call.CreateShader _ => true
  | Call.ShaderSource _ _ _ => true
  | Call.CompileShader _ => true
  | Call.GetShaderiv _ _ => true
  | Call.GetShaderInfoLog _ _ => true
  | Call.DeleteShader _ => true
  | Call.CreateProgram => true
  | Call.AttachShader _ _ => true
  | Call.LinkProgram _ => true
  | Call.GetProgramiv _ _ => true
  | Call.GetProgramInfoLog _ _ => true
  | _ => false

/-! ## Basic facts about runs -/

@[simp] theorem Run.bind_apply {α β : Type} (m : Run α) (f : α → Run β) (pos : Nat) :
    (m >>= f) pos = match m pos with
      | (Except.ok a, cs) => ((f a (pos + cs.length)).1, cs ++ (f a (pos + cs.length)).2)
      | (Except.error e, cs) => (Except.error e, cs) := rfl

@[simp] theorem Run.pure_apply {α : Type} (a : α) (pos : Nat) :
    (Pure.pure a : Run α) pos = (Except.ok a, []) := rfl

@[simp] theorem Run.pure_apply2 {α : Type} (a : α) (pos : Nat) :
    (Run.pure a : Run α) pos = (Except.ok a, []) := rfl

@[simp] theorem call_apply (c : Call) (pos : Nat) :
    call c pos = (Except.ok (), [c]) := rfl

@[simp] theorem ask_apply {α : Type} (f : Nat → α) (c : Call) (pos : Nat) :
    ask f c pos = (Except.ok (f pos), [c]) := rfl

@[simp] theorem abort_apply {α : Type} (e : Abort) (pos : Nat) :
    (abort e : Run α) pos = (Except.error e, []) := rfl

theorem wrapInt32_succ (n : Int) (h0 : 0 ≤ n) (h1 : n < 2147483647) :
    wrapInt32 (n + 1) = n + 1 := by
  unfold wrapInt32
  omega

theorem hasNulSuffix_logBuffer (n : Int) (h0 : 0 ≤ n) :
    hasNulSuffix (logBuffer n) = true := by
  have h : (n + 1).toNat = n.toNat + 1 := by omega
  simp [logBuffer, hasNulSuffix, h, List.replicate_succ', List.getLast?_append]

theorem writeLog_length (n : Int) (h0 : 0 ≤ n) (written : List Char) :
    ((writeLog (logBuffer n) n written).length : Int) = n + 1 := by
  have h : (n + 1).toNat = n.toNat + 1 := by omega
  simp only [writeLog, logBuffer, String.length, List.length_append, List.length_drop,
    List.length_take, List.length_replicate, h]
  omega

theorem writeLog_data (n : Int) (h0 : 0 ≤ n) (written : List Char)
    (hw : (written.length : Int) ≤ n) :
    (writeLog (logBuffer n) n written).data =
      written ++ List.replicate ((n + 1).toNat - written.length) nul := by
  have h : (n + 1).toNat = n.toNat + 1 := by omega
  have hle : written.length ≤ n.toNat := by omega
  have hmin : min n.toNat (n.toNat + 1) = n.toNat := by omega
  simp only [writeLog, logBuffer, String.length, List.length_replicate, h, hmin,
    List.take_of_length_le hle, List.drop_replicate]

theorem compileShader_ok (d : Driver) (source : String) (shaderType : Nat) (pos : Nat)
    (hs : hasNulSuffix source = true) (hst : d.GetShaderiv (pos + 3) ≠ FALSE) :
    compileShader d source shaderType pos =
      (Except.ok (d.CreateShader pos, none),
        [Call.CreateShader shaderType,
         Call.ShaderSource (d.CreateShader pos) 1 source,
         Call.CompileShader (d.CreateShader pos),
         Call.GetShaderiv (d.CreateShader pos) COMPILE_STATUS]) := by
  simp [compileShader, Str, hs, hst]

theorem compileShader_failed (d : Driver) (source : String) (shaderType : Nat) (pos : Nat)
    (hs : hasNulSuffix source = true) (hst : d.GetShaderiv (pos + 3) = FALSE)
    (h0 : 0 ≤ d.GetShaderiv (pos + 4)) (h1 : d.GetShaderiv (pos + 4) < 2147483647) :
    compileShader d source shaderType pos =
      (Except.ok (0, some ("failed to compile " ++ source ++ ": " ++
          writeLog (logBuffer (d.GetShaderiv (pos + 4)))
            (d.GetShaderiv (pos + 4)) (d.GetShaderInfoLog (pos + 5)))),
        [Call.CreateShader shaderType,
         Call.ShaderSource (d.CreateShader pos) 1 source,
         Call.CompileShader (d.CreateShader pos),
         Call.GetShaderiv (d.CreateShader pos) COMPILE_STATUS,
         Call.GetShaderiv (d.CreateShader pos) INFO_LOG_LENGTH,
         Call.GetShaderInfoLog (d.CreateShader pos) (d.GetShaderiv (pos + 4))]) := by
  have hw := wrapInt32_succ _ h0 h1
  have hn := hasNulSuffix_logBuffer _ h0
  have hlt : ¬ (d.GetShaderiv (pos + 4) + 1 < 0) := by omega
  unfold logBuffer at hn
  simp [compileShader, Str, RepeatNul, hs, hst, hw, hn, hlt, logBuffer]

theorem compileShader_calls (d : Driver) (source : String) (shaderType : Nat) (pos : Nat) :
    ∀ c ∈ (compileShader d source shaderType pos).2, c.isShaderCall = true := by
  unfold compileShader
  by_cases hs : hasNulSuffix source = true
  · by_cases hst : d.GetShaderiv (pos + 3) = FALSE
    · by_cases hlt : wrapInt32 (d.GetShaderiv (pos + 4) + 1) < 0
      · simp [Str, RepeatNul, hs, hst, hlt, Call.isShaderCall]
      · by_cases hn : hasNulSuffix (String.mk (List.replicate
            (wrapInt32 (d.GetShaderiv (pos + 4) + 1)).toNat nul)) = true
        · simp [Str, RepeatNul, hs, hst, hlt, hn, Call.isShaderCall]
        · simp [Str, RepeatNul, hs, hst, hlt, hn, Call.isShaderCall]
    · simp [Str, RepeatNul, hs, hst, Call.isShaderCall]
  · simp [Str, hs, Call.isShaderCall]

theorem compileShader_ok_inv (d : Driver) (source : String) (shaderType : Nat) (pos : Nat)
    (h : Nat) (cs : List Call)
    (hret : compileShader d source shaderType pos = (Except.ok (h, none), cs)) :
    hasNulSuffix source = true ∧ d.GetShaderiv (pos + 3) ≠ FALSE ∧
      h = d.CreateShader pos ∧
      cs = [Call.CreateShader shaderType,
            Call.ShaderSource (d.CreateShader pos) 1 source,
            Call.CompileShader (d.CreateShader pos),
            Call.GetShaderiv (d.CreateShader pos) COMPILE_STATUS] := by
  unfold compileShader at hret
  by_cases hs : hasNulSuffix source = true
  · by_cases hst : d.GetShaderiv (pos + 3) = FALSE
    · by_cases hlt : wrapInt32 (d.GetShaderiv (pos + 4) + 1) < 0
      · simp [Str, RepeatNul, hs, hst, hlt] at hret
      · by_cases hn : hasNulSuffix (String.mk (List.replicate
            (wrapInt32 (d.GetShaderiv (pos + 4) + 1)).toNat nul)) = true
        · simp [Str, RepeatNul, hs, hst, hlt, hn] at hret
        · simp [Str, RepeatNul, hs, hst, hlt, hn] at hret
    · simp [Str, RepeatNul, hs, hst] at hret
      obtain ⟨h1, h2⟩ := hret
      exact ⟨hs, hst, h1.symm, h2.symm⟩
  · simp [Str, hs] at hret

theorem compileShader_err_inv (d : Driver) (source : String) (shaderType : Nat) (pos : Nat)
    (h : Nat) (e : String) (cs : List Call)
    (hret : compileShader d source shaderType pos = (Except.ok (h, some e), cs)) :
    hasNulSuffix source = true ∧ d.GetShaderiv (pos + 3) = FALSE ∧ h = 0 ∧
      cs = [Call.CreateShader shaderType,
            Call.ShaderSource (d.CreateShader pos) 1 source,
            Call.CompileShader (d.CreateShader pos),
            Call.GetShaderiv (d.CreateShader pos) COMPILE_STATUS,
            Call.GetShaderiv (d.CreateShader pos) INFO_LOG_LENGTH,
            Call.GetShaderInfoLog (d.CreateShader pos) (d.GetShaderiv (pos + 4))] := by
  unfold compileShader at hret
  by_cases hs : hasNulSuffix source = true
  · by_cases hst : d.GetShaderiv (pos + 3) = FALSE
    · by_cases hlt : wrapInt32 (d.GetShaderiv (pos + 4) + 1) < 0
      · simp [Str, RepeatNul, hs, hst, hlt] at hret
      · by_cases hn : hasNulSuffix (String.mk (List.replicate
            (wrapInt32 (d.GetShaderiv (pos + 4) + 1)).toNat nul)) = true
        · simp [Str, RepeatNul, hs, hst, hlt, hn] at hret
          exact ⟨hs, hst, hret.1.1.symm, hret.2.symm⟩
        · simp [Str, RepeatNul, hs, hst, hlt, hn] at hret
    · simp [Str, RepeatNul, hs, hst] at hret
  · simp [Str, hs] at hret

theorem newProgram_success (d : Driver) (vsrc fsrc : String) (pos : Nat)
    (vs fs : Nat) (cv cf : List Call)
    (hv : compileShader d vsrc VERTEX_SHADER pos = (Except.ok (vs, none), cv))
    (hf : compileShader d fsrc FRAGMENT_SHADER (pos + cv.length) = (Except.ok (fs, none), cf))
    (hl : d.GetProgramiv (pos + cv.length + cf.length + 4) ≠ FALSE) :
    newProgram d vsrc fsrc pos =
      (Except.ok (d.CreateProgram (pos + cv.length + cf.length), none),
        cv ++ cf ++
        [Call.CreateProgram,
         Call.AttachShader (d.CreateProgram (pos + cv.length + cf.length)) vs,
         Call.AttachShader (d.CreateProgram (pos + cv.length + cf.length)) fs,
         Call.LinkProgram (d.CreateProgram (pos + cv.length + cf.length)),
         Call.GetProgramiv (d.CreateProgram (pos + cv.length + cf.length)) LINK_STATUS,
         Call.DeleteShader vs,
         Call.DeleteShader fs]) := by
  simp only [Nat.add_assoc] at hl
  simp [newProgram, hv, hf, hl, Nat.add_assoc]

theorem newProgram_link_failed (d : Driver) (vsrc fsrc : String) (pos : Nat)
    (vs fs : Nat) (cv cf : List Call)
    (hv : compileShader d vsrc VERTEX_SHADER pos = (Except.ok (vs, none), cv))
    (hf : compileShader d fsrc FRAGMENT_SHADER (pos + cv.length) = (Except.ok (fs, none), cf))
    (hl : d.GetProgramiv (pos + cv.length + cf.length + 4) = FALSE)
    (h0 : 0 ≤ d.GetProgramiv (pos + cv.length + cf.length + 5))
    (h1 : d.GetProgramiv (pos + cv.length + cf.length + 5) < 2147483647) :
    newProgram d vsrc fsrc pos =
      (Except.ok (0, some ("failed to link program: " ++
          writeLog (logBuffer (d.GetProgramiv (pos + cv.length + cf.length + 5)))
            (d.GetProgramiv (pos + cv.length + cf.length + 5))
            (d.GetProgramInfoLog (pos + cv.length + cf.length + 6)))),
        cv ++ cf ++
        [Call.CreateProgram,
         Call.AttachShader (d.CreateProgram (pos + cv.length + cf.length)) vs,
         Call.AttachShader (d.CreateProgram (pos + cv.length + cf.length)) fs,
         Call.LinkProgram (d.CreateProgram (pos + cv.length + cf.length)),
         Call.GetProgramiv (d.CreateProgram (pos + cv.length + cf.length)) LINK_STATUS,
         Call.GetProgramiv (d.CreateProgram (pos + cv.length + cf.length)) INFO_LOG_LENGTH,
         Call.GetProgramInfoLog (d.CreateProgram (pos + cv.length + cf.length))
           (d.GetProgramiv (pos + cv.length + cf.length + 5))]) := by
  have hw := wrapInt32_succ _ h0 h1
  have hn := hasNulSuffix_logBuffer _ h0
  have hlt : ¬ (d.GetProgramiv (pos + cv.length + cf.length + 5) + 1 < 0) := by omega
  unfold logBuffer at hn
  simp only [Nat.add_assoc] at hl hw hn hlt
  simp [newProgram, hv, hf, hl, Nat.add_assoc, Str, RepeatNul, hw, hn, hlt, logBuffer]

/-! ## The program linker: success path -/

/-- C1: when both compilations report success and the link status is not
FALSE, `newProgram` returns the handle answered to its `CreateProgram` call
together with a nil error; its trace creates exactly the vertex and the
fragment shader, deletes exactly these two handles (each once when the handles
differ), and both deletions come after `LinkProgram`. -/
theorem newProgram_success_releases_shaders (d : Driver) (vsrc fsrc : String) (pos : Nat)
    (vs fs : Nat) (cv cf : List Call)
    (hv : compileShader d vsrc VERTEX_SHADER pos = (Except.ok (vs, none), cv))
    (hf : compileShader d fsrc FRAGMENT_SHADER (pos + cv.length) = (Except.ok (fs, none), cf))
    (hl : d.GetProgramiv (pos + cv.length + cf.length + 4) ≠ FALSE) :
    (newProgram d vsrc fsrc pos).1 =
        Except.ok (d.CreateProgram (pos + cv.length + cf.length), none) ∧
      (newProgram d vsrc fsrc pos).2[cv.length + cf.length]? = some Call.CreateProgram ∧
      vs = d.CreateShader pos ∧ fs = d.CreateShader (pos + cv.length) ∧
      (newProgram d vsrc fsrc pos).2.filter Call.isCreateShader =
        [Call.CreateShader VERTEX_SHADER, Call.CreateShader FRAGMENT_SHADER] ∧
      (newProgram d vsrc fsrc pos).2.filter Call.isDeleteShader =
        [Call.DeleteShader vs, Call.DeleteShader fs] ∧
      (vs ≠ fs →
        (newProgram d vsrc fsrc pos).2.count (Call.DeleteShader vs) = 1 ∧
        (newProgram d vsrc fsrc pos).2.count (Call.DeleteShader fs) = 1) ∧
      ∃ pre post, (newProgram d vsrc fsrc pos).2 =
          pre ++ Call.LinkProgram (d.CreateProgram (pos + cv.length + cf.length)) :: post ∧
        (∀ c ∈ pre, c.isDeleteShader = false) ∧
        Call.DeleteShader vs ∈ post ∧ Call.DeleteShader fs ∈ post := by
  have hnew := newProgram_success d vsrc fsrc pos vs fs cv cf hv hf hl
  obtain ⟨_, _, hvs, hcv⟩ := compileShader_ok_inv d vsrc VERTEX_SHADER pos vs cv hv
  obtain ⟨_, _, hfs, hcf⟩ :=
    compileShader_ok_inv d fsrc FRAGMENT_SHADER (pos + cv.length) fs cf hf
  rw [hnew]
  refine ⟨rfl, ?_, hvs, hfs, ?_, ?_, ?_, ?_⟩
  · rw [List.getElem?_append_right (by simp)]
    simp
  · rw [hcv, hcf]
    simp [Call.isCreateShader]
  · rw [hcv, hcf]
    simp [Call.isDeleteShader]
  · intro hne
    have hne2 : fs ≠ vs := fun h => hne h.symm
    rw [hcv, hcf]
    simp [List.count_cons, hne, hne2]
  · refine ⟨cv ++ cf ++ [Call.CreateProgram,
        Call.AttachShader (d.CreateProgram (pos + cv.length + cf.length)) vs,
        Call.AttachShader (d.CreateProgram (pos + cv.length + cf.length)) fs],
      [Call.GetProgramiv (d.CreateProgram (pos + cv.length + cf.length)) LINK_STATUS,
        Call.DeleteShader vs, Call.DeleteShader fs], ?_, ?_, ?_, ?_⟩
    · simp
    · rw [hcv, hcf]
      simp [Call.isDeleteShader]
    · simp
    · simp

/-- Witness of C1: the shader texts of `CreateContext` on `okDriver`. -/
theorem newProgram_success_releases_shaders_witness :
    (newProgram okDriver vertexShader fragmentShader 0).1 = Except.ok (9, none) ∧
      (newProgram okDriver vertexShader fragmentShader 0).2.filter Call.isDeleteShader =
        [Call.DeleteShader 1, Call.DeleteShader 5] ∧
      (newProgram okDriver vertexShader fragmentShader 0).2.count (Call.DeleteShader 1) = 1 ∧
      (newProgram okDriver vertexShader fragmentShader 0).2.count (Call.DeleteShader 5) = 1 :=
  have h := newProgram_success_releases_shaders okDriver vertexShader fragmentShader 0 1 5
    [Call.CreateShader VERTEX_SHADER, Call.ShaderSource 1 1 vertexShader,
      Call.CompileShader 1, Call.GetShaderiv 1 COMPILE_STATUS]
    [Call.CreateShader FRAGMENT_SHADER, Call.ShaderSource 5 1 fragmentShader,
      Call.CompileShader 5, Call.GetShaderiv 5 COMPILE_STATUS]
    (by rfl) (by rfl) (by decide)
  ⟨h.1, h.2.2.2.2.2.1, h.2.2.2.2.2.2.1 (by decide)⟩

/-! ## The program linker: compile errors -/

/-- C2: when the vertex source compiles and the fragment source does not,
`newProgram` returns handle 0 with exactly the error of the fragment
`compileShader` call and issues no `CreateProgram`, `AttachShader` or
`LinkProgram`; when the vertex source does not compile, it returns the vertex
error, its trace is that of the vertex compilation alone, and so holds no call
for a fragment shader or a program. -/
theorem newProgram_compile_error_fail_fast (d : Driver) (vsrc fsrc : String) (pos : Nat) :
    (∀ (vs h : Nat) (e : String) (cv cf : List Call),
      compileShader d vsrc VERTEX_SHADER pos = (Except.ok (vs, none), cv) →
      compileShader d fsrc FRAGMENT_SHADER (pos + cv.length) = (Except.ok (h, some e), cf) →
        newProgram d vsrc fsrc pos = (Except.ok (0, some e), cv ++ cf) ∧
        ∀ c ∈ (newProgram d vsrc fsrc pos).2, c.isProgramCall = false) ∧
    (∀ (h : Nat) (e : String) (cv : List Call),
      compileShader d vsrc VERTEX_SHADER pos = (Except.ok (h, some e), cv) →
        newProgram d vsrc fsrc pos = (Except.ok (0, some e), cv) ∧
        (∀ c ∈ (newProgram d vsrc fsrc pos).2, c.isProgramCall = false) ∧
        (newProgram d vsrc fsrc pos).2.filter Call.isCreateShader =
          [Call.CreateShader VERTEX_SHADER] ∧
        (newProgram d vsrc fsrc pos).2.filter Call.isCompileShader =
          [Call.CompileShader (d.CreateShader pos)]) := by
  constructor
  · intro vs h e cv cf hv hf
    have hnew : newProgram d vsrc fsrc pos = (Except.ok (0, some e), cv ++ cf) := by
      simp [newProgram, hv, hf]
    refine ⟨hnew, ?_⟩
    rw [hnew]
    intro c hc
    have hsh : c.isShaderCall = true := by
      rcases List.mem_append.mp hc with hc | hc
      · have := compileShader_calls d vsrc VERTEX_SHADER pos
        rw [hv] at this
        exact this c hc
      · have := compileShader_calls d fsrc FRAGMENT_SHADER (pos + cv.length)
        rw [hf] at this
        exact this c hc
    cases c <;> simp_all [Call.isShaderCall, Call.isProgramCall]
  · intro h e cv hv
    have hnew : newProgram d vsrc fsrc pos = (Except.ok (0, some e), cv) := by
      simp [newProgram, hv]
    obtain ⟨_, _, _, hcv⟩ := compileShader_err_inv d vsrc VERTEX_SHADER pos h e cv hv
    rw [hnew]
    refine ⟨rfl, ?_, ?_, ?_⟩
    · rw [hcv]
      simp [Call.isProgramCall]
    · rw [hcv]
      simp [Call.isCreateShader]
    · rw [hcv]
      simp [Call.isCompileShader]

/-- Witness of C2: the fragment status query (position 7) and the vertex
status query (position 3) answering FALSE. -/
theorem newProgram_compile_error_fail_fast_witness :
    (newProgram (shaderFailDriver 7) vertexShader fragmentShader 0).1 =
        Except.ok (0, some ("failed to compile " ++ fragmentShader ++ ": oops\x00\x00")) ∧
      (newProgram (shaderFailDriver 3) vertexShader fragmentShader 0).1 =
        Except.ok (0, some ("failed to compile " ++ vertexShader ++ ": oops\x00\x00")) :=
  ⟨congrArg Prod.fst
    ((newProgram_compile_error_fail_fast (shaderFailDriver 7) vertexShader fragmentShader 0).1
      1 0 ("failed to compile " ++ fragmentShader ++ ": oops\x00\x00")
      [Call.CreateShader VERTEX_SHADER, Call.ShaderSource 1 1 vertexShader,
        Call.CompileShader 1, Call.GetShaderiv 1 COMPILE_STATUS]
      [Call.CreateShader FRAGMENT_SHADER, Call.ShaderSource 5 1 fragmentShader,
        Call.CompileShader 5, Call.GetShaderiv 5 COMPILE_STATUS,
        Call.GetShaderiv 5 INFO_LOG_LENGTH, Call.GetShaderInfoLog 5 5]
      (by rfl) (by rfl)).1,
   congrArg Prod.fst
    ((newProgram_compile_error_fail_fast (shaderFailDriver 3) vertexShader fragmentShader 0).2
      0 ("failed to compile " ++ vertexShader ++ ": oops\x00\x00")
      [Call.CreateShader VERTEX_SHADER, Call.ShaderSource 1 1 vertexShader,
        Call.CompileShader 1, Call.GetShaderiv 1 COMPILE_STATUS,
        Call.GetShaderiv 1 INFO_LOG_LENGTH, Call.GetShaderInfoLog 1 5]
      (by rfl)).1⟩

/-! ## The shader compiler -/

/-- C3: when the driver is asked for the compile status (the fourth call of
`compileShader`) and reports FALSE, with an info-log length that is a count
below the `int32` maximum, `compileShader` returns handle 0 and an error whose
text is the prefix, the exact input text, and a diagnostic log of
`logLength + 1 > 0` bytes that starts with what the driver wrote; when the
status is not FALSE it returns the handle answered to `CreateShader` and no
error. -/
theorem compileShader_status_contract (d : Driver) (source : String) (shaderType : Nat)
    (pos : Nat)
    (hq : (compileShader d source shaderType pos).2[3]? =
      some (Call.GetShaderiv (d.CreateShader pos) COMPILE_STATUS)) :
    (d.GetShaderiv (pos + 3) = FALSE →
      0 ≤ d.GetShaderiv (pos + 4) → d.GetShaderiv (pos + 4) < 2147483647 →
      ∃ log : String,
        (compileShader d source shaderType pos).1 =
          Except.ok (0, some ("failed to compile " ++ source ++ ": " ++ log)) ∧
        log = writeLog (logBuffer (d.GetShaderiv (pos + 4))) (d.GetShaderiv (pos + 4))
          (d.GetShaderInfoLog (pos + 5)) ∧
        (log.length : Int) = d.GetShaderiv (pos + 4) + 1 ∧
        0 < log.length ∧
        (((d.GetShaderInfoLog (pos + 5)).length : Int) ≤ d.GetShaderiv (pos + 4) →
          log.data = d.GetShaderInfoLog (pos + 5) ++
            List.replicate ((d.GetShaderiv (pos + 4) + 1).toNat -
              (d.GetShaderInfoLog (pos + 5)).length) nul)) ∧
    (d.GetShaderiv (pos + 3) ≠ FALSE →
      (compileShader d source shaderType pos).1 = Except.ok (d.CreateShader pos, none) ∧
      (compileShader d source shaderType pos).2[0]? = some (Call.CreateShader shaderType)) := by
  have hs : hasNulSuffix source = true := by
    by_contra hs
    simp [compileShader, Str, hs] at hq
  constructor
  · intro hst h0 h1
    refine ⟨writeLog (logBuffer (d.GetShaderiv (pos + 4))) (d.GetShaderiv (pos + 4))
      (d.GetShaderInfoLog (pos + 5)), ?_, rfl, writeLog_length _ h0 _, ?_,
      writeLog_data _ h0 _⟩
    · rw [compileShader_failed d source shaderType pos hs hst h0 h1]
    · have := writeLog_length _ h0 (d.GetShaderInfoLog (pos + 5))
      omega
  · intro hst
    rw [compileShader_ok d source shaderType pos hs hst]
    exact ⟨rfl, rfl⟩

/-- Witness of C3: the vertex shader text of `CreateContext`, on a driver that
reports FALSE with the log `oops`, and on `okDriver`. -/
theorem compileShader_status_contract_witness :
    (∃ log : String,
        (compileShader (shaderFailDriver 3) vertexShader VERTEX_SHADER 0).1 =
          Except.ok (0, some ("failed to compile " ++ vertexShader ++ ": " ++ log)) ∧
        0 < log.length) ∧
      (compileShader okDriver vertexShader VERTEX_SHADER 0).1 = Except.ok (1, none) :=
  ⟨(((compileShader_status_contract (shaderFailDriver 3) vertexShader VERTEX_SHADER 0
        (by rfl)).1 (by decide) (by decide) (by decide)).imp
      (fun _ h => ⟨h.1, h.2.2.2.1⟩)),
   ((compileShader_status_contract okDriver vertexShader VERTEX_SHADER 0
        (by rfl)).2 (by decide)).1⟩

/-! ## The program linker: link failure -/

/-- C4: when both compilations succeed and the driver reports link status
FALSE, with an info-log length that is a count below the `int32` maximum,
`newProgram` returns handle 0 and an error whose text is the prefix and the
link log, read through `GetProgramInfoLog` into a buffer of `logLength + 1`
bytes with `logLength` as the size passed; the handle returned is not that of
the unlinked program. -/
theorem newProgram_link_failure_returns_zero (d : Driver) (vsrc fsrc : String) (pos : Nat)
    (vs fs : Nat) (cv cf : List Call)
    (hv : compileShader d vsrc VERTEX_SHADER pos = (Except.ok (vs, none), cv))
    (hf : compileShader d fsrc FRAGMENT_SHADER (pos + cv.length) = (Except.ok (fs, none), cf))
    (hl : d.GetProgramiv (pos + cv.length + cf.length + 4) = FALSE)
    (h0 : 0 ≤ d.GetProgramiv (pos + cv.length + cf.length + 5))
    (h1 : d.GetProgramiv (pos + cv.length + cf.length + 5) < 2147483647) :
    ∃ log : String,
      (newProgram d vsrc fsrc pos).1 =
        Except.ok (0, some ("failed to link program: " ++ log)) ∧
      log = writeLog (logBuffer (d.GetProgramiv (pos + cv.length + cf.length + 5)))
        (d.GetProgramiv (pos + cv.length + cf.length + 5))
        (d.GetProgramInfoLog (pos + cv.length + cf.length + 6)) ∧
      (log.length : Int) = d.GetProgramiv (pos + cv.length + cf.length + 5) + 1 ∧
      (((d.GetProgramInfoLog (pos + cv.length + cf.length + 6)).length : Int) ≤
          d.GetProgramiv (pos + cv.length + cf.length + 5) →
        log.data = d.GetProgramInfoLog (pos + cv.length + cf.length + 6) ++
          List.replicate ((d.GetProgramiv (pos + cv.length + cf.length + 5) + 1).toNat -
            (d.GetProgramInfoLog (pos + cv.length + cf.length + 6)).length) nul) ∧
      (newProgram d vsrc fsrc pos).2 = cv ++ cf ++
        [Call.CreateProgram,
         Call.AttachShader (d.CreateProgram (pos + cv.length + cf.length)) vs,
         Call.AttachShader (d.CreateProgram (pos + cv.length + cf.length)) fs,
         Call.LinkProgram (d.CreateProgram (pos + cv.length + cf.length)),
         Call.GetProgramiv (d.CreateProgram (pos + cv.length + cf.length)) LINK_STATUS,
         Call.GetProgramiv (d.CreateProgram (pos + cv.length + cf.length)) INFO_LOG_LENGTH,
         Call.GetProgramInfoLog (d.CreateProgram (pos + cv.length + cf.length))
           (d.GetProgramiv (pos + cv.length + cf.length + 5))] ∧
      (d.CreateProgram (pos + cv.length + cf.length) ≠ 0 →
        ∀ (h : Nat) (e : Option String), (newProgram d vsrc fsrc pos).1 = Except.ok (h, e) →
          h = 0 ∧ h ≠ d.CreateProgram (pos + cv.length + cf.length)) := by
  have hnew := newProgram_link_failed d vsrc fsrc pos vs fs cv cf hv hf hl h0 h1
  refine ⟨_, ?_, rfl, writeLog_length _ h0 _, writeLog_data _ h0 _, ?_, ?_⟩
  · rw [hnew]
  · rw [hnew]
  · intro hp h e hret
    rw [hnew] at hret
    simp only [Except.ok.injEq, Prod.mk.injEq] at hret
    obtain ⟨hz, _⟩ := hret
    exact ⟨hz.symm, by rw [← hz]; exact fun hc => hp hc.symm⟩

/-- Witness of C4: the shader texts of `CreateContext` on `linkFailDriver`. -/
theorem newProgram_link_failure_returns_zero_witness :
    ∃ log : String,
      (newProgram linkFailDriver vertexShader fragmentShader 0).1 =
        Except.ok (0, some ("failed to link program: " ++ log)) ∧
      (log.length : Int) = 6 :=
  (newProgram_link_failure_returns_zero linkFailDriver vertexShader fragmentShader 0 1 5
    [Call.CreateShader VERTEX_SHADER, Call.ShaderSource 1 1 vertexShader,
      Call.CompileShader 1, Call.GetShaderiv 1 COMPILE_STATUS]
    [Call.CreateShader FRAGMENT_SHADER, Call.ShaderSource 5 1 fragmentShader,
      Call.CompileShader 5, Call.GetShaderiv 5 COMPILE_STATUS]
    (by rfl) (by rfl) (by decide) (by decide) (by decide)).imp
    (fun _ h => ⟨h.1, h.2.2.1⟩)

/-! ## Per-frame operations -/

theorem DrawRectangle_calls (d : Driver) (c : Context) (x y w h : F32) (color : Color)
    (pos : Nat) :
    c.DrawRectangle d x y w h color pos =
      (Except.ok (),
        [Call.UseProgram c.program,
         Call.GetUniformLocation c.program "model\x00",
         Call.UniformMatrix4fv (d.GetUniformLocation (pos + 1)) 1 false
           ((Translate3D x y 0).Mul4 (Scale3D w h 0)).toList,
         Call.GetUniformLocation c.program "color\x00",
         Call.Uniform4fv (d.GetUniformLocation (pos + 3)) 1 [color.B, color.G, color.R],
         Call.DrawArrays TRIANGLES 0 6]) := by
  have h1 : hasNulSuffix "model\x00" = true := by rfl
  have h2 : hasNulSuffix "color\x00" = true := by rfl
  simp [Context.DrawRectangle, Str, h1, h2]

theorem model_matrix_eq (x y w h : F32) :
    (Translate3D x y 0).Mul4 (Scale3D w h 0) =
      ⟨w, 0, 0, 0, 0, h, 0, 0, 0, 0, 0, 0, x, y, 0, 1⟩ := by
  simp [Translate3D, Scale3D, Mat4.Mul4]

/-- C6: `Clear` issues exactly two driver calls, `ClearColor` with the three
channels of the color and alpha 1, then `Clear` with a mask whose set bits are
exactly the color-buffer bit (bit 14) and the depth-buffer bit (bit 8); in
particular the color (0.2, 0.3, 0.4) gives the clear color
(0.2, 0.3, 0.4, 1.0). -/
theorem Clear_calls (c : Context) (color : Color) (pos : Nat) :
    c.Clear color pos =
        (Except.ok (),
          [Call.ClearColor color.R color.G color.B 1,
           Call.Clear (COLOR_BUFFER_BIT ||| DEPTH_BUFFER_BIT)]) ∧
      (∀ i : Nat, (COLOR_BUFFER_BIT ||| DEPTH_BUFFER_BIT).testBit i = true ↔ (i = 14 ∨ i = 8)) ∧
      COLOR_BUFFER_BIT = 2 ^ 14 ∧ DEPTH_BUFFER_BIT = 2 ^ 8 ∧
      (c.Clear ⟨1 / 5, 3 / 10, 2 / 5⟩ pos).2[0]? =
        some (Call.ClearColor (1 / 5) (3 / 10) (2 / 5) 1) := by
  refine ⟨?_, ?_, by decide, by decide, ?_⟩
  · simp [Context.Clear]
  · intro i
    by_cases hi : i < 15
    · interval_cases i <;> simp [COLOR_BUFFER_BIT, DEPTH_BUFFER_BIT] <;> decide
    · have hlt : (COLOR_BUFFER_BIT ||| DEPTH_BUFFER_BIT) < 2 ^ i := by
        have h15 : (COLOR_BUFFER_BIT ||| DEPTH_BUFFER_BIT) < 2 ^ 15 := by decide
        exact lt_of_lt_of_le h15 (Nat.pow_le_pow_right (by decide) (by omega))
      rw [Nat.testBit_lt_two_pow hlt]
      constructor
      · intro h
        cases h
      · intro h
        omega
  · simp [Context.Clear]

/-- C5: the color upload of `DrawRectangle` is `Uniform4fv` with count 1 on
the array `[B, G, R]`, so the channels are in the order B, G, R, but the array
holds three floats while the upload reads four: the fourth component read
lies outside the packed array.  At `Color` (1, 0, 0) the array is
`[0, 0, 1]`. -/
theorem DrawRectangle_color_upload_reads_past_array (d : Driver) (c : Context)
    (x y w h : F32) (color : Color) (pos : Nat) :
    (c.DrawRectangle d x y w h color pos).2.filter
        (fun k => k.isUniformUpload && decide (k.floatsRead = 4)) =
        [Call.Uniform4fv (d.GetUniformLocation (pos + 3)) 1 [color.B, color.G, color.R]] ∧
      (c.DrawRectangle d x y w h color pos).2[3]? =
        some (Call.GetUniformLocation c.program "color\x00") ∧
      (Call.Uniform4fv (d.GetUniformLocation (pos + 3)) 1
        [color.B, color.G, color.R]).floatsGiven = 3 ∧
      (Call.Uniform4fv (d.GetUniformLocation (pos + 3)) 1
        [color.B, color.G, color.R]).floatsRead = 4 ∧
      ¬ (∀ k ∈ (c.DrawRectangle d x y w h color pos).2, k.floatsRead ≤ k.floatsGiven) ∧
      (Context.DrawRectangle okDriver ⟨9, 7⟩ 0 0 100 50 ⟨1, 0, 0⟩ 0).2[4]? =
        some (Call.Uniform4fv 2 1 [0, 0, 1]) := by
  rw [DrawRectangle_calls, DrawRectangle_calls, model_matrix_eq]
  refine ⟨?_, by simp, by simp [Call.floatsGiven], by simp [Call.floatsRead], ?_, ?_⟩
  · simp [Call.isUniformUpload, Call.floatsRead, Mat4.toList]
  · intro hall
    have := hall (Call.Uniform4fv (d.GetUniformLocation (pos + 3)) 1
      [color.B, color.G, color.R]) (by simp)
    simp [Call.floatsRead, Call.floatsGiven] at this
  · simp [okDriver]

theorem drawRectangles_calls (d : Driver) (c : Context) (rects : List Rect) :
    ∀ pos : Nat, (drawRectangles d c rects pos).1 = Except.ok () ∧
      (drawRectangles d c rects pos).2.filter Call.isDraw =
        List.replicate rects.length (Call.DrawArrays TRIANGLES 0 6) ∧
      ∀ k ∈ (drawRectangles d c rects pos).2, k.isBufferOrVertexArrayCall = false := by
  induction rects with
  | nil =>
    intro pos
    simp [drawRectangles]
  | cons r rs ih =>
    intro pos
    obtain ⟨h1, h2, h3⟩ := ih (pos + 6)
    simp only [drawRectangles, Run.bind, DrawRectangle_calls, List.length_cons,
      List.length_nil, Nat.zero_add, Nat.reduceAdd]
    refine ⟨h1, ?_, ?_⟩
    · rw [List.filter_append, h2]
      simp [Call.isDraw, List.replicate_succ]
    · intro k hk
      rcases List.mem_append.mp hk with hk | hk
      · simp at hk
        rcases hk with hk | hk | hk | hk | hk | hk <;> subst hk <;> rfl
      · exact h3 k hk

/-- C8: one `DrawRectangle` call activates the program of the context,
queries and uploads the `model` and the `color` uniform and nothing else, and
ends with the single draw command `DrawArrays(TRIANGLES, 0, 6)`; no call
creates, binds or fills a buffer or a vertex array.  Any sequence of N calls
issues exactly N draw commands, all `DrawArrays(TRIANGLES, 0, 6)`.  Two
calls with identical arguments issue the same sequence of calls with the same
arguments, up to the location numbers the driver answers, and the very same
sequence when the driver answers the same locations. -/
theorem DrawRectangle_call_sequence (d : Driver) (c : Context) (x y w h : F32)
    (color : Color) (pos : Nat) :
    c.DrawRectangle d x y w h color pos =
        (Except.ok (),
          [Call.UseProgram c.program,
           Call.GetUniformLocation c.program "model\x00",
           Call.UniformMatrix4fv (d.GetUniformLocation (pos + 1)) 1 false
             ((Translate3D x y 0).Mul4 (Scale3D w h 0)).toList,
           Call.GetUniformLocation c.program "color\x00",
           Call.Uniform4fv (d.GetUniformLocation (pos + 3)) 1 [color.B, color.G, color.R],
           Call.DrawArrays TRIANGLES 0 6]) ∧
      (∀ k ∈ (c.DrawRectangle d x y w h color pos).2, k.isBufferOrVertexArrayCall = false) ∧
      (c.DrawRectangle d x y w h color pos).2.filter Call.isUniformQuery =
        [Call.GetUniformLocation c.program "model\x00",
         Call.GetUniformLocation c.program "color\x00"] ∧
      ((c.DrawRectangle d x y w h color pos).2.filter Call.isUniformUpload).length = 2 ∧
      (c.DrawRectangle d x y w h color pos).2.filter Call.isDraw =
        [Call.DrawArrays TRIANGLES 0 6] ∧
      (c.DrawRectangle d x y w h color pos).2.getLast? = some (Call.DrawArrays TRIANGLES 0 6) ∧
      (∀ (rects : List Rect) (p : Nat),
        (drawRectangles d c rects p).1 = Except.ok () ∧
        (drawRectangles d c rects p).2.filter Call.isDraw =
          List.replicate rects.length (Call.DrawArrays TRIANGLES 0 6) ∧
        ∀ k ∈ (drawRectangles d c rects p).2, k.isBufferOrVertexArrayCall = false) ∧
      (drawRectangles d c [⟨x, y, w, h, color⟩, ⟨x, y, w, h, color⟩] pos).2 =
        (c.DrawRectangle d x y w h color pos).2 ++
          (c.DrawRectangle d x y w h color (pos + 6)).2 ∧
      (c.DrawRectangle d x y w h color pos).2.map Call.eraseLocation =
        (c.DrawRectangle d x y w h color (pos + 6)).2.map Call.eraseLocation ∧
      (d.GetUniformLocation (pos + 1) = d.GetUniformLocation (pos + 7) →
        d.GetUniformLocation (pos + 3) = d.GetUniformLocation (pos + 9) →
        (c.DrawRectangle d x y w h color pos).2 =
          (c.DrawRectangle d x y w h color (pos + 6)).2) := by
  refine ⟨DrawRectangle_calls d c x y w h color pos, ?_, ?_, ?_, ?_, ?_,
    fun rects p => drawRectangles_calls d c rects p, ?_, ?_, ?_⟩
  · rw [DrawRectangle_calls]
    intro k hk
    simp at hk
    rcases hk with hk | hk | hk | hk | hk | hk <;> subst hk <;> rfl
  · rw [DrawRectangle_calls]
    simp [Call.isUniformQuery]
  · rw [DrawRectangle_calls]
    simp [Call.isUniformUpload]
  · rw [DrawRectangle_calls]
    simp [Call.isDraw]
  · rw [DrawRectangle_calls]
    simp
  · simp [drawRectangles, Run.bind, DrawRectangle_calls]
  · simp [DrawRectangle_calls, Call.eraseLocation]
  · intro h1 h2
    simp [DrawRectangle_calls, h1, h2]

/-- Witness of C8: on `okDriver`, which answers location 2 to every query,
two identical calls issue identical sequences. -/
theorem DrawRectangle_call_sequence_witness :
    (Context.DrawRectangle okDriver ⟨9, 7⟩ 0 0 100 50 ⟨1, 0, 0⟩ 0).2 =
      (Context.DrawRectangle okDriver ⟨9, 7⟩ 0 0 100 50 ⟨1, 0, 0⟩ (0 + 6)).2 :=
  (DrawRectangle_call_sequence okDriver ⟨9, 7⟩ 0 0 100 50 ⟨1, 0, 0⟩ 0).2.2.2.2.2.2.2.2.2
    (by rfl) (by rfl)

/-! ## Context construction -/

theorem newProgram_calls (d : Driver) (vsrc fsrc : String) (pos : Nat) :
    ∀ c ∈ (newProgram d vsrc fsrc pos).2, c.isLinkerCall = true := by
  have hsh : ∀ c : Call, c.isShaderCall = true → c.isLinkerCall = true := by
    intro c
    cases c <;> simp [Call.isShaderCall, Call.isLinkerCall]
  have hv := compileShader_calls d vsrc VERTEX_SHADER pos
  unfold newProgram
  rcases hcv : compileShader d vsrc VERTEX_SHADER pos with ⟨_ | ⟨vs, _ | e⟩, cv⟩
  · rw [hcv] at hv
    simp only [Run.bind_apply, hcv]
    exact fun c hc => hsh c (hv c hc)
  · rw [hcv] at hv
    have hf := compileShader_calls d fsrc FRAGMENT_SHADER (pos + cv.length)
    rcases hcf : compileShader d fsrc FRAGMENT_SHADER (pos + cv.length) with
      ⟨_ | ⟨fs, _ | e⟩, cf⟩
    · rw [hcf] at hf
      simp [hcv, hcf]
      intro c hc
      rcases hc with hc | hc
      · exact hsh c (hv c hc)
      · exact hsh c (hf c hc)
    · rw [hcf] at hf
      intro c hc
      by_cases hl : d.GetProgramiv (pos + (cv.length + (cf.length + 4))) = FALSE
      · by_cases hlt : wrapInt32 (d.GetProgramiv (pos + (cv.length + (cf.length + 5))) + 1) < 0
        · simp [hcv, hcf, Str, RepeatNul, hl, hlt, Nat.add_assoc] at hc
          rcases hc with hc | hc | hc | hc | hc | hc | hc | hc
          · exact hsh c (hv c hc)
          · exact hsh c (hf c hc)
          all_goals subst hc; rfl
        · by_cases hn : hasNulSuffix (String.mk (List.replicate (wrapInt32 (d.GetProgramiv
              (pos + (cv.length + (cf.length + 5))) + 1)).toNat nul)) = true
          · simp [hcv, hcf, Str, RepeatNul, hl, hlt, hn, Nat.add_assoc] at hc
            rcases hc with hc | hc | hc | hc | hc | hc | hc | hc | hc
            · exact hsh c (hv c hc)
            · exact hsh c (hf c hc)
            all_goals subst hc; rfl
          · simp [hcv, hcf, Str, RepeatNul, hl, hlt, hn, Nat.add_assoc] at hc
            rcases hc with hc | hc | hc | hc | hc | hc | hc | hc
            · exact hsh c (hv c hc)
            · exact hsh c (hf c hc)
            all_goals subst hc; rfl
      · simp [hcv, hcf, hl, Nat.add_assoc] at hc
        rcases hc with hc | hc | hc | hc | hc | hc | hc | hc | hc
        · exact hsh c (hv c hc)
        · exact hsh c (hf c hc)
        all_goals subst hc; rfl
    · rw [hcf] at hf
      simp [hcv, hcf]
      intro c hc
      rcases hc with hc | hc
      · exact hsh c (hv c hc)
      · exact hsh c (hf c hc)
  · rw [hcv] at hv
    simp [hcv]
    exact fun c hc => hsh c (hv c hc)

theorem CreateContext_ok_inv (d : Driver) (width height : Int) (pos : Nat)
    (ctx : Context)
    (hok : (CreateContext d width height pos).1 = Except.ok ctx) :
    ∃ cp : List Call,
      newProgram d vertexShader fragmentShader (pos + 9) = (Except.ok (ctx.program, none), cp) ∧
      ctx.Window = (d.glfwCreateWindow (pos + 6)).1 ∧
      (CreateContext d width height pos).2 = [Call.glfwInit,
            Call.glfwWindowHint glfwResizable glfwFalse,
            Call.glfwWindowHint glfwContextVersionMajor 3,
            Call.glfwWindowHint glfwContextVersionMinor 3,
            Call.glfwWindowHint glfwOpenGLProfile glfwOpenGLCoreProfile,
            Call.glfwWindowHint glfwOpenGLForwardCompatible glfwTrue,
            Call.glfwCreateWindow width height "OpenGL",
            Call.glfwMakeContextCurrent (d.glfwCreateWindow (pos + 6)).1,
            Call.glInit] ++ cp ++
           [Call.UseProgram ctx.program,
            Call.GetUniformLocation ctx.program "projection\x00",
            Call.UniformMatrix4fv (d.GetUniformLocation (pos + 9 + cp.length + 1)) 1 false
              (Ortho2D 0 800 0 600).toList,
            Call.GetUniformLocation ctx.program "camera\x00",
            Call.UniformMatrix4fv (d.GetUniformLocation (pos + 9 + cp.length + 3)) 1 false
              (LookAtV ⟨0, 0, 1 / 2⟩ ⟨0, 0, 0⟩ ⟨0, 1, 0⟩).toList,
            Call.GetUniformLocation ctx.program "model\x00",
            Call.UniformMatrix4fv (d.GetUniformLocation (pos + 9 + cp.length + 5)) 1 false
              Ident4.toList,
            Call.GenVertexArrays 1,
            Call.BindVertexArray (d.GenVertexArrays (pos + 9 + cp.length + 7)),
            Call.GenBuffers 1,
            Call.BindBuffer ARRAY_BUFFER (d.GenBuffers (pos + 9 + cp.length + 9)),
            Call.BufferData ARRAY_BUFFER 72 vertices STATIC_DRAW,
            Call.GetAttribLocation ctx.program "vert\x00",
            Call.EnableVertexAttribArray
              (toUint32 (d.GetAttribLocation (pos + 9 + cp.length + 12))),
            Call.VertexAttribPointer
              (toUint32 (d.GetAttribLocation (pos + 9 + cp.length + 12))) 3 FLOAT false 12 0,
            Call.Enable DEPTH_TEST,
            Call.DepthFunc LESS] := by
  have h1 : hasNulSuffix "projection\x00" = true := by rfl
  have h2 : hasNulSuffix "camera\x00" = true := by rfl
  have h3 : hasNulSuffix "model\x00" = true := by rfl
  have h4 : hasNulSuffix "vert\x00" = true := by rfl
  have hret : CreateContext d width height pos =
      (Except.ok ctx, (CreateContext d width height pos).2) := Prod.ext hok rfl
  generalize (CreateContext d width height pos).2 = cs at hret ⊢
  clear hok
  unfold CreateContext at hret
  rcases hgi : d.glfwInit pos with _ | e
  · rcases hcw : d.glfwCreateWindow (pos + 6) with ⟨win, _ | e⟩
    · rcases hi : d.glInit (pos + 8) with _ | e
      · rcases hnp : newProgram d vertexShader fragmentShader (pos + 9) with ⟨_ | ⟨program, _ | e⟩, cp⟩
        · simp [hgi, hcw, hi, hnp] at hret
        · simp [hgi, hcw, hi, hnp, Str, h1, h2, h3, h4] at hret
          obtain ⟨hc, hcs⟩ := hret
          subst hc
          subst hcs
          refine ⟨cp, rfl, rfl, ?_⟩
          simp [Nat.add_assoc, vertices]
        · simp [hgi, hcw, hi, hnp] at hret
      · simp [hgi, hcw, hi] at hret
    · simp [hgi, hcw] at hret
  · simp [hgi] at hret

theorem unit_quad_cover (p : F32 × F32) :
    (triangleCovers vertices 0 p ∨ triangleCovers vertices 1 p) ↔
      (0 ≤ p.1 ∧ p.1 ≤ 1 ∧ 0 ≤ p.2 ∧ p.2 ≤ 1) := by
  simp only [triangleCovers, inTriangle, edgeSide, vertexAt, vertices]
  norm_num
  constructor
  · rintro ((⟨h1, h2, h3⟩ | ⟨h1, h2, h3⟩) | (⟨h1, h2, h3⟩ | ⟨h1, h2, h3⟩)) <;>
      refine ⟨?_, ?_, ?_, ?_⟩ <;> linarith
  · rintro ⟨h1, h2, h3, h4⟩
    rcases le_total p.2 p.1 with h | h
    · left
      left
      refine ⟨?_, ?_, ?_⟩ <;> linarith
    · right
      left
      refine ⟨?_, ?_, ?_⟩ <;> linarith

/-- C10: when construction succeeds, the one vertex upload is `BufferData`
of 72 bytes holding the 18 floats of `vertices`, laid out by the one
`VertexAttribPointer` call as 3 floats per vertex with stride 12; that is 6
vertices, all with z = 0, forming the triangles (0,0),(1,0),(1,1) and
(1,1),(0,1),(0,0), which together cover exactly the unit square; the 6
vertices `DrawRectangle` draws from first 0 are the 6 uploaded. -/
theorem CreateContext_vertex_data (d : Driver) (width height : Int) (pos : Nat)
    (ctx : Context)
    (hok : (CreateContext d width height pos).1 = Except.ok ctx) :
    (CreateContext d width height pos).2.filter Call.isBufferData =
        [Call.BufferData ARRAY_BUFFER 72 vertices STATIC_DRAW] ∧
      (∃ index : Nat, (CreateContext d width height pos).2.filter Call.isVertexAttribPointer =
        [Call.VertexAttribPointer index 3 FLOAT false 12 0]) ∧
      vertices.length = 18 ∧ vertices.length = 6 * 3 ∧ (72 : Int) = 6 * 12 ∧
      (72 : Int) = vertices.length * 4 ∧
      (Call.BufferData ARRAY_BUFFER 72 vertices STATIC_DRAW).floatsRead =
        (Call.BufferData ARRAY_BUFFER 72 vertices STATIC_DRAW).floatsGiven ∧
      (∀ i : Nat, (vertexAt vertices i).z = 0) ∧
      vertexAt vertices 0 = ⟨0, 0, 0⟩ ∧ vertexAt vertices 1 = ⟨1, 0, 0⟩ ∧
      vertexAt vertices 2 = ⟨1, 1, 0⟩ ∧ vertexAt vertices 3 = ⟨1, 1, 0⟩ ∧
      vertexAt vertices 4 = ⟨0, 1, 0⟩ ∧ vertexAt vertices 5 = ⟨0, 0, 0⟩ ∧
      (∀ p : F32 × F32, (triangleCovers vertices 0 p ∨ triangleCovers vertices 1 p) ↔
        (0 ≤ p.1 ∧ p.1 ≤ 1 ∧ 0 ≤ p.2 ∧ p.2 ≤ 1)) ∧
      (∀ (x y w h : F32) (color : Color) (p : Nat),
        (ctx.DrawRectangle d x y w h color p).2.filter Call.isDraw =
          [Call.DrawArrays TRIANGLES 0 (vertices.length / 3 : Nat)]) ∧
      (0 : Int) + 6 ≤ (vertices.length / 3 : Nat) := by
  obtain ⟨cp, hnp, _, hcs⟩ :=
    CreateContext_ok_inv d width height pos ctx hok
  have hcp := newProgram_calls d vertexShader fragmentShader (pos + 9)
  rw [hnp] at hcp
  have hnoBuf : cp.filter Call.isBufferData = [] := by
    rw [List.filter_eq_nil_iff]
    intro c hc
    have := hcp c hc
    cases c <;> simp_all [Call.isLinkerCall, Call.isBufferData]
  have hnoPtr : cp.filter Call.isVertexAttribPointer = [] := by
    rw [List.filter_eq_nil_iff]
    intro c hc
    have := hcp c hc
    cases c <;> simp_all [Call.isLinkerCall, Call.isVertexAttribPointer]
  refine ⟨?_, ⟨toUint32 (d.GetAttribLocation (pos + 9 + cp.length + 12)), ?_⟩, by rfl, by rfl,
    by norm_num, by simp [vertices], ?_, ?_, ?_, ?_, ?_, ?_, ?_, ?_, unit_quad_cover, ?_, ?_⟩
  · rw [hcs]
    simp [List.filter_append, hnoBuf, Call.isBufferData]
  · rw [hcs]
    simp [List.filter_append, hnoPtr, Call.isVertexAttribPointer]
  · simp [Call.floatsRead, Call.floatsGiven, vertices]
  · intro i
    simp only [vertexAt, vertices]
    by_cases hi : i < 6
    · interval_cases i <;> simp
    · rw [List.getD_eq_default _ _ (by simp; omega)]
  all_goals first
    | (simp [vertexAt, vertices]; done)
    | (intro x y w h color p; rw [DrawRectangle_calls]; simp [Call.isDraw, vertices])

/-- Witness of C10: a window of 800 by 600 on `okDriver`. -/
theorem CreateContext_vertex_data_witness :
    (CreateContext okDriver 800 600 0).1 = Except.ok ⟨18, 7⟩ ∧
      (CreateContext okDriver 800 600 0).2.filter Call.isBufferData =
        [Call.BufferData ARRAY_BUFFER 72 vertices STATIC_DRAW] :=
  ⟨by rfl, (CreateContext_vertex_data okDriver 800 600 0 ⟨18, 7⟩ (by rfl)).1⟩

end Godraw
